import Mathlib

/-!
Verification development for the `menbee-cdk` repository: a shallow
embedding of the declared deployment topology (security-group ingress
rules, load-balancer listeners, container definition, target-group
health checks, CLI entry point) together with the health-check policy
evaluator described by the design document. The repository ships two
variants of the stack file (embedded below as namespaces `part000` and
`part001`); the CLI entry point `bin/cdk.ts` is embedded as `binApp`.
-/

/-- Origin of an ingress rule: the public internet (`ec2.Peer.anyIpv4()`)
or the ALB security group (rules that name `albSecurityGroup` as peer). -/
inductive Peer where
  | anyIpv4
  | albSecurityGroup
deriving DecidableEq, Repr

/-- One `addIngressRule` call: peer, TCP port range and description string.
`ec2.Port.tcp(p)` is embedded as `fromPort = toPort = p`;
`ec2.Port.tcpRange(a, b)` as `fromPort = a, toPort = b`. -/
structure IngressRule where
  peer : Peer
  fromPort : Nat
  toPort : Nat
  descr : String
deriving DecidableEq, Repr

/-- One `alb.addListener` call: port, protocol, and whether its default
action is a redirect to HTTPS. -/
structure ListenerDef where
  port : Nat
  protocol : String
  redirectToHttps : Bool
deriving DecidableEq, Repr

/-- An entry of the container's `secrets` map:
`ecs.Secret.fromSecretsManager(appSecrets, key)` bound to an environment
variable name. Only the secret's name and the JSON key appear in the
descriptor; no secret value is part of the structure. -/
structure SecretRef where
  envName : String
  secretName : String
  jsonKey : String
deriving DecidableEq, Repr

/-- The container-level `healthCheck` block of `addContainer`
(durations in seconds). -/
structure ContainerHealthCheck where
  command : List String
  intervalSeconds : Nat
  timeoutSeconds : Nat
  retries : Nat
  startPeriodSeconds : Nat
deriving DecidableEq, Repr

/-- One element of `portMappings`. -/
structure PortMapping where
  containerPort : Nat
  hostPort : Nat
  protocol : String
deriving DecidableEq, Repr

/-- The `addContainer` call's configuration (fields relevant to the
topology and health-check claims). -/
structure ContainerDef where
  containerName : String
  memoryReservationMiB : Nat
  memoryLimitMiB : Nat
  cpu : Nat
  portMappings : List PortMapping
  essential : Bool
  startTimeoutSeconds : Nat
  stopTimeoutSeconds : Nat
  environment : List (String × String)
  secrets : List SecretRef
  healthCheck : ContainerHealthCheck
deriving DecidableEq, Repr

/-- The target-group `healthCheck` block of `addTargets`
(durations in seconds). -/
structure ElbHealthCheck where
  path : String
  intervalSeconds : Nat
  timeoutSeconds : Nat
  healthyThresholdCount : Nat
  unhealthyThresholdCount : Nat
  port : String
  protocol : String
deriving DecidableEq, Repr

/-- The `addTargets('EcsTargetGroup', ...)` call. -/
structure TargetGroupDef where
  port : Nat
  protocol : String
  healthCheck : ElbHealthCheck
  deregistrationDelaySeconds : Nat
deriving DecidableEq, Repr

namespace part000

/-- `albSecurityGroup.addIngressRule(anyIpv4, tcp(443), ...)`:
the only explicit public ingress rule on the ALB security group. -/
def albIngressRules : List IngressRule :=
  [{ peer := Peer.anyIpv4, fromPort := 443, toPort := 443,
     descr := "Allow HTTPS traffic from Cloudflare" }]

/-- The two `alb.addListener` calls: HTTPS on 443 (forwarding) and
HTTP on 80 whose default action redirects to HTTPS:443. -/
def listeners : List ListenerDef :=
  [{ port := 443, protocol := "HTTPS", redirectToHttps := false },
   { port := 80, protocol := "HTTP", redirectToHttps := true }]

/-- The three `ec2SecurityGroup.addIngressRule` calls, in source order. -/
def ec2IngressRules : List IngressRule :=
  [{ peer := Peer.anyIpv4, fromPort := 22, toPort := 22,
     descr := "Allow SSH access" },
   { peer := Peer.albSecurityGroup, fromPort := 3000, toPort := 3000,
     descr := "Allow traffic from ALB to container port 3000" },
   { peer := Peer.albSecurityGroup, fromPort := 32768, toPort := 65535,
     descr := "Allow traffic from ALB to dynamic ports" }]

/-- `serviceSecurityGroup.addIngressRule(albSecurityGroup, tcp(3000), ...)`. -/
def serviceIngressRules : List IngressRule :=
  [{ peer := Peer.albSecurityGroup, fromPort := 3000, toPort := 3000,
     descr := "Allow traffic from ALB" }]

/-- The `userData.addCommands(...)` shell lines, in source order. -/
def userDataCommands : List String :=
  ["echo \"ec2-user:your-password-here\" | chpasswd",
   "sed -i \"s/PasswordAuthentication no/PasswordAuthentication yes/g\" /etc/ssh/sshd_config",
   "systemctl restart sshd",
   "echo ECS_CLUSTER=nextjs-cluster >> /etc/ecs/ecs.config"]

/-- The `taskDefinition.addContainer("NextjsContainer", ...)` call. -/
def nextjsContainer : ContainerDef :=
  { containerName := "nextjs-container"
    memoryReservationMiB := 200
    memoryLimitMiB := 800
    cpu := 128
    portMappings := [{ containerPort := 3000, hostPort := 0, protocol := "tcp" }]
    essential := true
    startTimeoutSeconds := 600
    stopTimeoutSeconds := 120
    environment :=
      [("NODE_ENV", "production"),
       ("PORT", "3000"),
       ("HOSTNAME", "0.0.0.0"),
       ("NEXT_TELEMETRY_DISABLED", "1")]
    secrets :=
      [{ envName := "AUTH_SECRET", secretName := "nextjs-app/env", jsonKey := "AUTH_SECRET" },
       { envName := "NEXTAUTH_URL", secretName := "nextjs-app/env", jsonKey := "NEXTAUTH_URL" },
       { envName := "AUTH_GOOGLE_ID", secretName := "nextjs-app/env", jsonKey := "AUTH_GOOGLE_ID" },
       { envName := "AUTH_GOOGLE_SECRET", secretName := "nextjs-app/env", jsonKey := "AUTH_GOOGLE_SECRET" },
       { envName := "DATABASE_URL", secretName := "nextjs-app/env", jsonKey := "DATABASE_URL" },
       { envName := "AUTH_TRUST_HOST", secretName := "nextjs-app/env", jsonKey := "AUTH_TRUST_HOST" }]
    healthCheck :=
      { command := ["CMD-SHELL", "exit 0"]
        intervalSeconds := 30
        timeoutSeconds := 5
        retries := 3
        startPeriodSeconds := 60 } }

/-- `httpsListener.addTargets('EcsTargetGroup', ...)`. -/
def ecsTargetGroup : TargetGroupDef :=
  { port := 80
    protocol := "HTTP"
    healthCheck :=
      { path := "/"
        intervalSeconds := 120
        timeoutSeconds := 60
        healthyThresholdCount := 2
        unhealthyThresholdCount := 10
        port := "traffic-port"
        protocol := "HTTP" }
    deregistrationDelaySeconds := 300 }

end part000

namespace part001

/-- `albSecurityGroup.addIngressRule(anyIpv4, tcp(80), ...)`:
HTTP only, Cloudflare terminates HTTPS in this variant. -/
def albIngressRules : List IngressRule :=
  [{ peer := Peer.anyIpv4, fromPort := 80, toPort := 80,
     descr := "Allow HTTP traffic from Cloudflare" }]

/-- The single `alb.addListener('HttpListener', { port: 80, open: true })`. -/
def listeners : List ListenerDef :=
  [{ port := 80, protocol := "HTTP", redirectToHttps := false }]

/-- The three `ec2SecurityGroup.addIngressRule` calls, in source order. -/
def ec2IngressRules : List IngressRule :=
  [{ peer := Peer.anyIpv4, fromPort := 22, toPort := 22,
     descr := "Allow SSH access" },
   { peer := Peer.albSecurityGroup, fromPort := 3000, toPort := 3000,
     descr := "Allow traffic from ALB to container port 3000" },
   { peer := Peer.albSecurityGroup, fromPort := 32768, toPort := 65535,
     descr := "Allow traffic from ALB to dynamic ports" }]

/-- `serviceSecurityGroup.addIngressRule(albSecurityGroup, tcp(3000), ...)`. -/
def serviceIngressRules : List IngressRule :=
  [{ peer := Peer.albSecurityGroup, fromPort := 3000, toPort := 3000,
     descr := "Allow traffic from ALB" }]

/-- The `userData.addCommands(...)` shell lines, identical to the other
variant. -/
def userDataCommands : List String :=
  ["echo \"ec2-user:your-password-here\" | chpasswd",
   "sed -i \"s/PasswordAuthentication no/PasswordAuthentication yes/g\" /etc/ssh/sshd_config",
   "systemctl restart sshd",
   "echo ECS_CLUSTER=nextjs-cluster >> /etc/ecs/ecs.config"]

/-- The `taskDefinition.addContainer("NextjsContainer", ...)` call.
This variant configures no `secrets` map at all. -/
def nextjsContainer : ContainerDef :=
  { containerName := "nextjs-container"
    memoryReservationMiB := 200
    memoryLimitMiB := 800
    cpu := 128
    portMappings := [{ containerPort := 3000, hostPort := 0, protocol := "tcp" }]
    essential := true
    startTimeoutSeconds := 600
    stopTimeoutSeconds := 120
    environment :=
      [("NODE_ENV", "production"),
       ("PORT", "3000"),
       ("HOSTNAME", "0.0.0.0"),
       ("NEXT_TELEMETRY_DISABLED", "1")]
    secrets := []
    healthCheck :=
      { command := ["CMD-SHELL", "exit 0"]
        intervalSeconds := 30
        timeoutSeconds := 5
        retries := 3
        startPeriodSeconds := 60 } }

/-- `httpListener.addTargets('EcsTargetGroup', ...)`. -/
def ecsTargetGroup : TargetGroupDef :=
  { port := 80
    protocol := "HTTP"
    healthCheck :=
      { path := "/"
        intervalSeconds := 120
        timeoutSeconds := 60
        healthyThresholdCount := 2
        unhealthyThresholdCount := 10
        port := "traffic-port"
        protocol := "HTTP" }
    deregistrationDelaySeconds := 300 }

end part001

/-- One stack instantiation of `bin/cdk.ts`. -/
structure StackInstance where
  id : String
  domainName : String
  region : String
deriving DecidableEq, Repr

/-- `process.env.CDK_DEFAULT_REGION || 'ap-northeast-1'`: a JavaScript
`||` treats an unset variable (`none`) and the empty string as falsy. -/
def resolveRegion : Option String → String
  | none => "ap-northeast-1"
  | some s => if s = "" then "ap-northeast-1" else s

/-- The CLI entry point: one `DockerImageDeploymentStack` named
`MenbeeSchedulerStack` with domain `menbee-scheduler.com`, region taken
from the `CDK_DEFAULT_REGION` environment variable with fallback. -/
def binApp (envRegion : Option String) : List StackInstance :=
  [{ id := "MenbeeSchedulerStack"
     domainName := "menbee-scheduler.com"
     region := resolveRegion envRegion }]

/-- Modelled from the spec: the topology descriptor of design document
section 3 — domain name, AZ count, container port, host port range and
the health-check policy — since the repository's only representation of
it is the declarative resource assembly above. -/
structure TopologyConfig where
  domainName : String
  maxAzs : Nat
  containerPort : Nat
  hostPortMin : Nat
  hostPortMax : Nat
  healthCheck : ElbHealthCheck
deriving DecidableEq, Repr

/-- Modelled from the spec: the error surfaced when a health-check
policy is rejected during construction. -/
inductive PolicyError where
  | InvalidPolicy
deriving DecidableEq, Repr

/-- Modelled from the spec: construction of the topology as a flat
configuration object plus a validation pass; the validation pass
rejects a configuration whose health-check timeout is greater than or
equal to its interval (design document sections 4.1 and 8), which the
repository delegates to the external provisioning engine. -/
def buildTopology (cfg : TopologyConfig) : Except PolicyError TopologyConfig :=
  if cfg.healthCheck.intervalSeconds ≤ cfg.healthCheck.timeoutSeconds then
    Except.error PolicyError.InvalidPolicy
  else
    Except.ok cfg

/-- Modelled from the spec: the eligibility states of the health-check
policy evaluator of design document section 4.1, which is executed by
the external load-balancing service, not by code under this repository. -/
inductive Phase where
  | unknown
  | healthy
  | unhealthy
deriving DecidableEq, Repr

/-- Modelled from the spec: evaluator state — the current phase together
with the streak of consecutive passing (resp. failing) probes just seen. -/
structure HCState where
  phase : Phase
  passStreak : Nat
  failStreak : Nat
deriving DecidableEq, Repr

/-- Modelled from the spec: the initial state is `UNKNOWN` with empty
streaks. -/
def initState : HCState :=
  { phase := Phase.unknown, passStreak := 0, failStreak := 0 }

/-- Modelled from the spec: one probe outcome applied to the evaluator
state. `N` is `healthyThresholdCount`, `M` is `unhealthyThresholdCount`.
A passing probe extends the pass streak, resets the fail streak, and
promotes a non-`HEALTHY` target to `HEALTHY` once `N` consecutive passes
have been seen; a failing probe extends the fail streak, resets the pass
streak, and demotes a `HEALTHY` target to `UNHEALTHY` once `M`
consecutive failures have been seen. -/
def step (N M : Nat) (s : HCState) (pass : Bool) : HCState :=
  if pass then
    { phase := if s.phase ≠ Phase.healthy ∧ N ≤ s.passStreak + 1 then Phase.healthy else s.phase
      passStreak := s.passStreak + 1
      failStreak := 0 }
  else
    { phase := if s.phase = Phase.healthy ∧ M ≤ s.failStreak + 1 then Phase.unhealthy else s.phase
      passStreak := 0
      failStreak := s.failStreak + 1 }

/-- Modelled from the spec: run the evaluator over a probe sequence
(`true` = passing probe, `false` = failing probe). -/
def runHC (N M : Nat) (s : HCState) (ps : List Bool) : HCState :=
  ps.foldl (step N M) s

/-- A probe sequence contains a run of `n` consecutive passing probes. -/
def HasRun (n : Nat) (ps : List Bool) : Prop :=
  ∃ l r, ps = l ++ List.replicate n true ++ r

/-- The trailing-streak accumulator: how a pass streak evolves over one
probe. -/
def stepStreak (c : Nat) (p : Bool) : Nat :=
  if p then c + 1 else 0

/-- Modelled from the spec: the shell exit code of a container probe
command. The constant command `exit 0` exits 0 regardless of the
application's state; a genuine probe command would exit 0 exactly when
the application is healthy. -/
def shellExitCode (appHealthy : Bool) (cmd : String) : Nat :=
  if cmd = "exit 0" then 0
  else if appHealthy then 0 else 1

/-- Modelled from the spec: a `CMD-SHELL` container health probe
succeeds exactly when its shell command exits 0. -/
def probeSucceeds (command : List String) (appHealthy : Bool) : Bool :=
  match command with
  | ["CMD-SHELL", sh] => shellExitCode appHealthy sh == 0
  | _ => false

/-- The health-check data-model invariant of design document section 3:
timeout strictly below interval, unhealthy threshold at least 1. -/
def elbPolicyInvariant (hc : ElbHealthCheck) : Prop :=
  hc.timeoutSeconds < hc.intervalSeconds ∧ 1 ≤ hc.unhealthyThresholdCount

/-- The same invariant for a container-level health check, whose
unhealthy threshold is its `retries` count. -/
def containerPolicyInvariant (hc : ContainerHealthCheck) : Prop :=
  hc.timeoutSeconds < hc.intervalSeconds ∧ 1 ≤ hc.retries

lemma runHC_nil (N M : Nat) (s : HCState) : runHC N M s [] = s := rfl

lemma runHC_cons (N M : Nat) (s : HCState) (p : Bool) (ps : List Bool) :
    runHC N M s (p :: ps) = runHC N M (step N M s p) ps := rfl

lemma runHC_singleton (N M : Nat) (s : HCState) (p : Bool) :
    runHC N M s [p] = step N M s p := rfl

lemma runHC_append (N M : Nat) (s : HCState) (l₁ l₂ : List Bool) :
    runHC N M s (l₁ ++ l₂) = runHC N M (runHC N M s l₁) l₂ := by
  simp [runHC, List.foldl_append]

lemma runHC_snoc (N M : Nat) (s : HCState) (l : List Bool) (p : Bool) :
    runHC N M s (l ++ [p]) = step N M (runHC N M s l) p := by
  rw [runHC_append, runHC_singleton]

lemma step_true_phase (N M : Nat) (s : HCState) :
    (step N M s true).phase =
      if s.phase ≠ Phase.healthy ∧ N ≤ s.passStreak + 1 then Phase.healthy else s.phase := by
  simp [step]

lemma step_false_phase (N M : Nat) (s : HCState) :
    (step N M s false).phase =
      if s.phase = Phase.healthy ∧ M ≤ s.failStreak + 1 then Phase.unhealthy else s.phase := by
  simp [step]

lemma step_passStreak (N M : Nat) (s : HCState) (p : Bool) :
    (step N M s p).passStreak = stepStreak s.passStreak p := by
  cases p <;> simp [step, stepStreak]

lemma runHC_passStreak (N M : Nat) :
    ∀ (ps : List Bool) (s : HCState),
      (runHC N M s ps).passStreak = ps.foldl stepStreak s.passStreak := by
  intro ps
  induction ps with
  | nil => intro s; rfl
  | cons p ps ih =>
      intro s
      rw [runHC_cons, ih, List.foldl_cons, step_passStreak]

lemma foldl_stepStreak_ge (l : List Bool) :
    ∀ k : Nat, k ≤ l.foldl stepStreak 0 → ∃ l0, l = l0 ++ List.replicate k true := by
  induction l using List.reverseRecOn with
  | nil =>
      intro k hk
      simp only [List.foldl_nil] at hk
      have : k = 0 := Nat.le_zero.mp hk
      subst this
      exact ⟨[], by simp⟩
  | append_singleton l p ih =>
      intro k hk
      rw [List.foldl_append, List.foldl_cons, List.foldl_nil] at hk
      cases p with
      | false =>
          have : k = 0 := Nat.le_zero.mp (by simpa [stepStreak] using hk)
          subst this
          exact ⟨l ++ [false], by simp⟩
      | true =>
          cases k with
          | zero => exact ⟨l ++ [true], by simp⟩
          | succ j =>
              have hj : j ≤ l.foldl stepStreak 0 := by
                simp [stepStreak] at hk
                omega
              obtain ⟨l0, hl0⟩ := ih j hj
              refine ⟨l0, ?_⟩
              rw [hl0, List.replicate_succ', ← List.append_assoc]

lemma hasRun_append_right (n : Nat) (l l' : List Bool) (h : HasRun n l) :
    HasRun n (l ++ l') := by
  obtain ⟨a, b, rfl⟩ := h
  exact ⟨a, b ++ l', by simp⟩

lemma hasRun_replicate_le (n k : Nat) (h : HasRun n (List.replicate k true)) :
    n ≤ k := by
  obtain ⟨a, b, hab⟩ := h
  have hlen := congrArg List.length hab
  simp only [List.length_replicate, List.length_append] at hlen
  omega

/-- Soundness of the evaluator: a target observed `HEALTHY` after a probe
sequence starting from `UNKNOWN` must have seen `N` consecutive passes. -/
lemma healthy_hasRun (N M : Nat) (hN : 1 ≤ N) :
    ∀ ps : List Bool, (runHC N M initState ps).phase = Phase.healthy → HasRun N ps := by
  intro ps
  induction ps using List.reverseRecOn with
  | nil =>
      intro h
      simp [runHC, initState] at h
  | append_singleton l p ih =>
      intro h
      rw [runHC_snoc] at h
      cases p with
      | false =>
          rw [step_false_phase] at h
          split at h
          · exact absurd h (by decide)
          · exact hasRun_append_right N l [false] (ih h)
      | true =>
          rw [step_true_phase] at h
          split at h
          · next hc =>
              have hstreak : (runHC N M initState l).passStreak = l.foldl stepStreak 0 :=
                runHC_passStreak N M l initState
              have hge : N - 1 ≤ l.foldl stepStreak 0 := by
                rw [← hstreak]; omega
              obtain ⟨l0, hl0⟩ := foldl_stepStreak_ge l (N - 1) hge
              refine ⟨l0, [], ?_⟩
              have hNe : N = (N - 1) + 1 := by omega
              rw [hl0, hNe, List.replicate_succ']
              simp
          · exact hasRun_append_right N l [true] (ih h)

/-- Completeness of the evaluator: enough consecutive passing probes
always reach `HEALTHY`. -/
lemma passes_reach_healthy (N M : Nat) :
    ∀ (k : Nat) (s : HCState), N ≤ s.passStreak + k →
      (s.phase = Phase.healthy ∨ 1 ≤ k) →
      (runHC N M s (List.replicate k true)).phase = Phase.healthy := by
  intro k
  induction k with
  | zero =>
      intro s hn hd
      rcases hd with h | h
      · simpa [runHC] using h
      · omega
  | succ k ih =>
      intro s hn _
      rw [List.replicate_succ, runHC_cons]
      have hps : (step N M s true).passStreak = s.passStreak + 1 := by
        simp [step]
      by_cases hs : s.phase = Phase.healthy
      · refine ih (step N M s true) (by omega) (Or.inl ?_)
        rw [step_true_phase]
        split
        · rfl
        · exact hs
      · by_cases hN1 : N ≤ s.passStreak + 1
        · refine ih (step N M s true) (by omega) (Or.inl ?_)
          rw [step_true_phase, if_pos ⟨hs, hN1⟩]
        · refine ih (step N M s true) (by omega) (Or.inr (by omega))

/-- Fewer than `M` consecutive failing probes leave a `HEALTHY` target
`HEALTHY`, the fail streak growing by one per probe. -/
lemma fails_keep_healthy (N M : Nat) :
    ∀ (k : Nat) (s : HCState), s.phase = Phase.healthy → s.failStreak + k < M →
      (runHC N M s (List.replicate k false)).phase = Phase.healthy ∧
      (runHC N M s (List.replicate k false)).failStreak = s.failStreak + k := by
  intro k
  induction k with
  | zero =>
      intro s hp _
      exact ⟨by simpa [runHC] using hp, by simp [runHC]⟩
  | succ k ih =>
      intro s hp hm
      rw [List.replicate_succ, runHC_cons]
      have hphase : (step N M s false).phase = s.phase := by
        rw [step_false_phase, if_neg]
        intro hc
        exact absurd hc.2 (by omega)
      have hfail : (step N M s false).failStreak = s.failStreak + 1 := by
        simp [step]
      obtain ⟨h1, h2⟩ :=
        ih (step N M s false) (hphase.trans hp) (by rw [hfail]; omega)
      exact ⟨h1, by rw [h2, hfail]; omega⟩

/-- Exactly `M` consecutive failing probes demote a fresh `HEALTHY`
target to `UNHEALTHY`. -/
lemma fails_reach_unhealthy (N M : Nat) (hM : 1 ≤ M) (s : HCState)
    (hp : s.phase = Phase.healthy) (hf : s.failStreak = 0) :
    (runHC N M s (List.replicate M false)).phase = Phase.unhealthy := by
  obtain ⟨m, rfl⟩ : ∃ m, M = m + 1 := ⟨M - 1, by omega⟩
  rw [List.replicate_succ', runHC_append]
  obtain ⟨h1, h2⟩ := fails_keep_healthy N (m + 1) m s hp (by omega)
  rw [runHC_singleton, step_false_phase, if_pos]
  exact ⟨h1, by rw [h2, hf]; omega⟩

/-- The topology configuration the stack declares (values of the
`part000` variant), assembled for the validation pass. -/
def stackTopologyCfg : TopologyConfig :=
  { domainName := "menbee-scheduler.com"
    maxAzs := 1
    containerPort := 3000
    hostPortMin := 32768
    hostPortMax := 65535
    healthCheck := part000.ecsTargetGroup.healthCheck }

/-- A rejected configuration: the stack's configuration with the
health-check timeout raised to equal the interval. -/
def invalidTopologyCfg : TopologyConfig :=
  { stackTopologyCfg with
    healthCheck := { stackTopologyCfg.healthCheck with timeoutSeconds := 120 } }

/-- Claim C1: for every health-check configuration with
timeout ≥ interval, construction of the topology fails with
`InvalidPolicy`; construction succeeds exactly when timeout < interval. -/
theorem claim_C1 (cfg : TopologyConfig) :
    (cfg.healthCheck.intervalSeconds ≤ cfg.healthCheck.timeoutSeconds ↔
      buildTopology cfg = Except.error PolicyError.InvalidPolicy)
    ∧ (cfg.healthCheck.timeoutSeconds < cfg.healthCheck.intervalSeconds ↔
      ∃ t, buildTopology cfg = Except.ok t) := by
  unfold buildTopology
  split
  next h =>
    refine ⟨⟨fun _ => rfl, fun _ => h⟩,
      ⟨fun hlt => absurd h (by omega), fun ht => ?_⟩⟩
    obtain ⟨t, ht⟩ := ht
    exact Except.noConfusion ht
  next h =>
    exact ⟨⟨fun hc => absurd hc h, fun hc => Except.noConfusion hc⟩,
      ⟨fun _ => ⟨cfg, rfl⟩, fun _ => by omega⟩⟩

/-- Witness for C1: the declared stack configuration (timeout 60 <
interval 120) is accepted, while raising the timeout to the interval is
rejected with `InvalidPolicy`. -/
theorem claim_C1_witness :
    buildTopology invalidTopologyCfg = Except.error PolicyError.InvalidPolicy
    ∧ ∃ t, buildTopology stackTopologyCfg = Except.ok t :=
  ⟨(claim_C1 invalidTopologyCfg).1.mp (by decide),
   (claim_C1 stackTopologyCfg).2.mp (by decide)⟩

/-- Claim C2: from `UNKNOWN`, a target becomes `HEALTHY` exactly after
`healthyThresholdCount` consecutive passing probes: a probe sequence
with no run of `N` consecutive passes never shows `HEALTHY`, `N`
consecutive passes reach `HEALTHY`, and fewer than `N` do not. -/
theorem claim_C2 (N M : Nat) (hN : 1 ≤ N) :
    (∀ ps : List Bool, ¬ HasRun N ps → (runHC N M initState ps).phase ≠ Phase.healthy)
    ∧ (runHC N M initState (List.replicate N true)).phase = Phase.healthy
    ∧ (∀ k : Nat, k < N →
        (runHC N M initState (List.replicate k true)).phase ≠ Phase.healthy) := by
  refine ⟨?_, ?_, ?_⟩
  · intro ps hnr h
    exact hnr (healthy_hasRun N M hN ps h)
  · exact passes_reach_healthy N M N initState (by simp [initState]) (Or.inr hN)
  · intro k hk h
    exact absurd (hasRun_replicate_le N k (healthy_hasRun N M hN _ h)) (by omega)

/-- Witness for C2 at the stack's thresholds (N = 2, M = 10): two
consecutive passes reach `HEALTHY`, a single pass does not. -/
theorem claim_C2_witness :
    (runHC 2 10 initState (List.replicate 2 true)).phase = Phase.healthy
    ∧ (runHC 2 10 initState (List.replicate 1 true)).phase ≠ Phase.healthy :=
  ⟨(claim_C2 2 10 (by decide)).2.1,
   (claim_C2 2 10 (by decide)).2.2 1 (by decide)⟩

/-- Claim C3: a `HEALTHY` target (with a fresh fail streak) becomes
`UNHEALTHY` exactly after `unhealthyThresholdCount` consecutive failing
probes — fewer leave it `HEALTHY` — and an `UNHEALTHY` target (with a
fresh pass streak) returns to `HEALTHY` after `healthyThresholdCount`
consecutive passes. -/
theorem claim_C3 (N M : Nat) (hN : 1 ≤ N) (hM : 1 ≤ M) (s : HCState)
    (hp : s.phase = Phase.healthy) (hf : s.failStreak = 0) :
    (∀ k : Nat, k < M → (runHC N M s (List.replicate k false)).phase = Phase.healthy)
    ∧ (runHC N M s (List.replicate M false)).phase = Phase.unhealthy
    ∧ (∀ s2 : HCState, s2.phase = Phase.unhealthy → s2.passStreak = 0 →
        (runHC N M s2 (List.replicate N true)).phase = Phase.healthy) := by
  refine ⟨?_, ?_, ?_⟩
  · intro k hk
    exact (fails_keep_healthy N M k s hp (by omega)).1
  · exact fails_reach_unhealthy N M hM s hp hf
  · intro s2 h2 hps
    exact passes_reach_healthy N M N s2 (by omega) (Or.inr hN)

/-- Witness for C3 at the stack's thresholds (N = 2, M = 10): nine
consecutive failures keep a healthy target healthy, ten demote it, and
two consecutive passes restore an unhealthy target. -/
theorem claim_C3_witness :
    (runHC 2 10 { phase := Phase.healthy, passStreak := 2, failStreak := 0 }
      (List.replicate 9 false)).phase = Phase.healthy
    ∧ (runHC 2 10 { phase := Phase.healthy, passStreak := 2, failStreak := 0 }
        (List.replicate 10 false)).phase = Phase.unhealthy
    ∧ (runHC 2 10 { phase := Phase.unhealthy, passStreak := 0, failStreak := 10 }
        (List.replicate 2 true)).phase = Phase.healthy := by
  have h := claim_C3 2 10 (by decide) (by decide)
    { phase := Phase.healthy, passStreak := 2, failStreak := 0 } rfl rfl
  exact ⟨h.1 9 (by decide), h.2.1,
    h.2.2 { phase := Phase.unhealthy, passStreak := 0, failStreak := 10 } rfl rfl⟩

/-- Claim C4: every health-check block the stack creates satisfies the
data-model invariant timeout < interval and unhealthy threshold ≥ 1 —
the target-group probe and the container-level probe, in both variants. -/
theorem claim_C4 :
    elbPolicyInvariant part000.ecsTargetGroup.healthCheck
    ∧ containerPolicyInvariant part000.nextjsContainer.healthCheck
    ∧ elbPolicyInvariant part001.ecsTargetGroup.healthCheck
    ∧ containerPolicyInvariant part001.nextjsContainer.healthCheck := by
  unfold elbPolicyInvariant containerPolicyInvariant
  decide

/-- Claim C5: the stack's target-group health-check policy equals the
design document's example (interval 120 s, timeout 60 s, healthy
threshold 2, unhealthy threshold 10, path "/"), in both variants, and
under these thresholds a target starting at `UNKNOWN` is eligible after
exactly 2 consecutive passing probes. -/
theorem claim_C5 :
    part000.ecsTargetGroup.healthCheck.path = "/"
    ∧ part000.ecsTargetGroup.healthCheck.intervalSeconds = 120
    ∧ part000.ecsTargetGroup.healthCheck.timeoutSeconds = 60
    ∧ part000.ecsTargetGroup.healthCheck.healthyThresholdCount = 2
    ∧ part000.ecsTargetGroup.healthCheck.unhealthyThresholdCount = 10
    ∧ part001.ecsTargetGroup.healthCheck = part000.ecsTargetGroup.healthCheck
    ∧ (runHC part000.ecsTargetGroup.healthCheck.healthyThresholdCount
        part000.ecsTargetGroup.healthCheck.unhealthyThresholdCount
        initState [true, true]).phase = Phase.healthy
    ∧ (runHC part000.ecsTargetGroup.healthCheck.healthyThresholdCount
        part000.ecsTargetGroup.healthCheck.unhealthyThresholdCount
        initState [true]).phase ≠ Phase.healthy := by
  decide

/-- Claim C6: public ingress on the ALB is TCP 80 or 443 only (all its
ingress rules and listeners), the container listens on port 3000 with
host port 0 (dynamic bridge-mode assignment), and the EC2 security
group opens exactly the dynamic range TCP 32768-65535 from the ALB
security group for that mapping — in both variants. -/
theorem claim_C6 :
    ((part000.albIngressRules ++ part001.albIngressRules).all
      (fun r => r.peer == Peer.anyIpv4 && r.fromPort == r.toPort
        && (r.fromPort == 80 || r.fromPort == 443))) = true
    ∧ ((part000.listeners ++ part001.listeners).all
        (fun l => l.port == 80 || l.port == 443)) = true
    ∧ part000.nextjsContainer.portMappings =
        [{ containerPort := 3000, hostPort := 0, protocol := "tcp" }]
    ∧ part001.nextjsContainer.portMappings =
        [{ containerPort := 3000, hostPort := 0, protocol := "tcp" }]
    ∧ (part000.ec2IngressRules.contains
        { peer := Peer.albSecurityGroup, fromPort := 32768, toPort := 65535,
          descr := "Allow traffic from ALB to dynamic ports" }) = true
    ∧ (part001.ec2IngressRules.contains
        { peer := Peer.albSecurityGroup, fromPort := 32768, toPort := 65535,
          descr := "Allow traffic from ALB to dynamic ports" }) = true
    ∧ ((part000.ec2IngressRules ++ part001.ec2IngressRules).all
        (fun r => !(r.peer == Peer.albSecurityGroup)
          || (r.fromPort == 3000 && r.toPort == 3000)
          || (r.fromPort == 32768 && r.toPort == 65535))) = true := by
  decide

/-- Claim C7 counterexample: the `part001` variant of the stack passes
no `secrets` map to `addContainer` at all, so its container receives
zero secret-backed environment variables, not six. -/
theorem claim_C7_counterexample :
    part001.nextjsContainer.secrets = []
    ∧ part001.nextjsContainer.secrets.length ≠ 6 := by
  decide

/-- Claim C7 (amended): the `part000` variant's container receives
exactly six secret-backed environment variables (authentication secret,
callback URL, OAuth client id and secret, database URL, trust-host
flag), every reference naming only the secret `nextjs-app/env` and a
JSON key equal to the variable name — never a value — while the
`part001` variant configures none. -/
theorem claim_C7 :
    part000.nextjsContainer.secrets.length = 6
    ∧ part000.nextjsContainer.secrets.map SecretRef.envName =
        ["AUTH_SECRET", "NEXTAUTH_URL", "AUTH_GOOGLE_ID", "AUTH_GOOGLE_SECRET",
         "DATABASE_URL", "AUTH_TRUST_HOST"]
    ∧ (part000.nextjsContainer.secrets.all
        (fun sr => sr.secretName == "nextjs-app/env" && sr.jsonKey == sr.envName)) = true
    ∧ part001.nextjsContainer.secrets = [] := by
  decide

/-- Claim C8: in both variants the compute hosts accept inbound TCP 22
from any IPv4 address, and the host bootstrap commands set a hard-coded
password and enable SSH password authentication. -/
theorem claim_C8 :
    (part000.ec2IngressRules.contains
      { peer := Peer.anyIpv4, fromPort := 22, toPort := 22,
        descr := "Allow SSH access" }) = true
    ∧ (part001.ec2IngressRules.contains
        { peer := Peer.anyIpv4, fromPort := 22, toPort := 22,
          descr := "Allow SSH access" }) = true
    ∧ (part000.userDataCommands.contains
        ("echo \"ec2-user:your-password-here\" | chpasswd")) = true
    ∧ (part000.userDataCommands.contains
        ("sed -i \"s/PasswordAuthentication no/PasswordAuthentication yes/g\" /etc/ssh/sshd_config")) = true
    ∧ (part001.userDataCommands.contains
        ("echo \"ec2-user:your-password-here\" | chpasswd")) = true
    ∧ (part001.userDataCommands.contains
        ("sed -i \"s/PasswordAuthentication no/PasswordAuthentication yes/g\" /etc/ssh/sshd_config")) = true := by
  decide

/-- Claim C9: the container-level health probe's command is the constant
`exit 0` in both variants, so the probe succeeds regardless of the
application's state; only the load balancer's HTTP probe can observe an
unhealthy application. -/
theorem claim_C9 :
    part000.nextjsContainer.healthCheck.command = ["CMD-SHELL", "exit 0"]
    ∧ part001.nextjsContainer.healthCheck.command = ["CMD-SHELL", "exit 0"]
    ∧ ∀ appHealthy : Bool,
        probeSucceeds part000.nextjsContainer.healthCheck.command appHealthy = true
        ∧ probeSucceeds part001.nextjsContainer.healthCheck.command appHealthy = true := by
  refine ⟨rfl, rfl, fun b => ⟨?_, ?_⟩⟩ <;> cases b <;> decide

/-- Claim C10: the CLI entry point instantiates exactly one stack, named
`MenbeeSchedulerStack` with domain `menbee-scheduler.com`; the region is
`ap-northeast-1` when `CDK_DEFAULT_REGION` is unset or empty, and the
variable's value unchanged otherwise. -/
theorem claim_C10 (env : Option String) (s : String) (hs : s ≠ "") :
    (binApp env).length = 1
    ∧ (binApp env).map (fun st => (st.id, st.domainName)) =
        [("MenbeeSchedulerStack", "menbee-scheduler.com")]
    ∧ resolveRegion none = "ap-northeast-1"
    ∧ resolveRegion (some ("")) = "ap-northeast-1"
    ∧ resolveRegion (some s) = s := by
  refine ⟨rfl, rfl, rfl, rfl, ?_⟩
  simp [resolveRegion, hs]

/-- Witness for C10: a set, non-empty region variable is used
unchanged; unset and empty fall back to `ap-northeast-1`. -/
theorem claim_C10_witness :
    (binApp (some ("us-west-2"))).length = 1
    ∧ (binApp (some ("us-west-2"))).map (fun st => (st.id, st.domainName)) =
        [("MenbeeSchedulerStack", "menbee-scheduler.com")]
    ∧ resolveRegion none = "ap-northeast-1"
    ∧ resolveRegion (some ("")) = "ap-northeast-1"
    ∧ resolveRegion (some ("us-west-2")) = "us-west-2" :=
  claim_C10 (some ("us-west-2")) "us-west-2" (by decide)
